import Mathlib

/-!
Shallow embedding of the list-query state machine and form/guard logic of the
usof-frontend repository, together with theorems settling the spec's claims.

Main sources:
  src/components/Profile/UserPosts.tsx          (list-query controller)
  src/components/Profile/ChangePasswordPage.tsx (password form validation)
  src/components/Admin/AdminDashboard.tsx       (admin role guard)

Modelling conventions:
  - React state is a record `ComponentState`; event handlers are pure state
    transformers.
  - The i18n translate function `t` is an out-of-scope collaborator; it is
    modelled as the identity on translation keys, which keeps distinct keys
    distinguishable.
  - A network fetch is split into its synchronous prefix (`fetchPostsStart`,
    everything before the await) and its continuation (`fetchPostsSettle`,
    run with the eventual success/failure outcome).
  - The `useEffect` at UserPosts.tsx lines 75-77 re-runs its fetch exactly
    when one of its dependencies `[pagination.currentPage, sortBy, filters]`
    changes under Object.is.  `currentPage` and `sortBy` are primitives
    (value comparison); `filters` is an object compared by reference, so the
    state carries a `filtersRef` tag that every `setFilters` call with a
    freshly built object bumps.
  - JavaScript `Math.ceil(a / b)` on integers with `b > 0` is the exact
    mathematical ceiling, modelled by `jsCeilDiv`.
-/

/-- Translate function of the i18n collaborator (out of scope per the spec);
modelled as the identity on keys. -/
def t (key : String) : String := key

/-- JS Math.ceil (a / b) for integers with b > 0: the mathematical ceiling of
the rational a / b, computed as the negated floor division of the negation. -/
def jsCeilDiv (a b : Int) : Int := -(Int.fdiv (-a) b)

/-- Date interval filter, from the FilterState interface of UserPosts.tsx. -/
structure DateInterval where
  startDate : String
  endDate : String
deriving DecidableEq, Repr

/-- FilterState of UserPosts.tsx: optional date interval, search query and
category id list. -/
structure FilterState where
  dateInterval : Option DateInterval := none
  searchQuery : Option String := none
  categoryIds : Option (List Int) := none
deriving DecidableEq, Repr

/-- One field update object passed to handleFilterChange; the outer Option
marks whether the field is present in the JS object literal (shallow-merge
semantics of the spread). -/
structure FilterUpdate where
  dateInterval : Option (Option DateInterval) := none
  searchQuery : Option (Option String) := none
  categoryIds : Option (Option (List Int)) := none
deriving DecidableEq, Repr

/-- Shallow merge of an update into the current filters, as in the JS spread
at UserPosts.tsx line 85. -/
def mergeFilters (prev : FilterState) (p : FilterUpdate) : FilterState :=
  { dateInterval := p.dateInterval.getD prev.dateInterval
    searchQuery := p.searchQuery.getD prev.searchQuery
    categoryIds := p.categoryIds.getD prev.categoryIds }

/-- Pagination metadata kept in the pagination useState of UserPosts.tsx. -/
structure Pagination where
  currentPage : Int
  totalPages : Int
  totalItems : Int
  itemsPerPage : Int
deriving DecidableEq, Repr

/-- Error details record of UserPosts.tsx (message, optional details and
machine code). -/
structure ErrorDetails where
  message : String
  details : Option String := none
  code : Option String := none
deriving DecidableEq, Repr

/-- Post summary; only its identity matters to the list-state machine. -/
structure Post where
  id : Int
deriving DecidableEq, Repr

/-- Full React state of the UserPosts component.  `filtersRef` is the
referential identity of the filters object (see module docstring). -/
structure ComponentState where
  posts : List Post
  isLoading : Bool
  showErrorModal : Bool
  errorDetails : Option ErrorDetails
  pagination : Pagination
  sortBy : String
  filters : FilterState
  filtersRef : Nat
deriving DecidableEq, Repr

/-- Initial useState values of UserPosts.tsx lines 24-39. -/
def initialState : ComponentState :=
  { posts := []
    isLoading := true
    showErrorModal := false
    errorDetails := none
    pagination := { currentPage := 1, totalPages := 1, totalItems := 0, itemsPerPage := 6 }
    sortBy := "publishDate"
    filters := {}
    filtersRef := 0 }

/-- Outcome of the GET /posts/user/posts request awaited inside fetchPosts:
either the parsed success body (posts plus pagination), or a failure carrying
the optional error field of the response body. -/
inductive FetchResult where
  | success (posts : List Post) (pagination : Pagination)
  | failure (backendError : Option String)
deriving DecidableEq, Repr

/-- Synchronous prefix of fetchPosts (UserPosts.tsx line 42): set the loading
flag before the request is issued. -/
def fetchPostsStart (s : ComponentState) : ComponentState :=
  { s with isLoading := true }

/-- Error state built in the catch branch of fetchPosts (lines 64-68): a
fixed fallback message and code, independent of the caught error. -/
def loadFailedError : ErrorDetails :=
  { message := t "userPosts.errors.loadFailed"
    details := some (t "error.tryAgain")
    code := some "POSTS_LOAD_ERROR" }

/-- Continuation of fetchPosts after the awaited request resolves: the
try/catch/finally of lines 60-72.  Success replaces posts and the whole
pagination object; failure installs the fallback error state and opens the
modal; both paths clear the loading flag in the finally block. -/
def fetchPostsSettle (res : FetchResult) (s : ComponentState) : ComponentState :=
  match res with
  | .success ps pg =>
      { s with posts := ps, pagination := pg, isLoading := false }
  | .failure _ =>
      { s with errorDetails := some loadFailedError
               showErrorModal := true
               isLoading := false }

/-- One whole run of fetchPosts with outcome `res`. -/
def fetchPosts (res : FetchResult) (s : ComponentState) : ComponentState :=
  fetchPostsSettle res (fetchPostsStart s)

/-- handleSortChange (UserPosts.tsx lines 79-82). -/
def handleSortChange (newSort : String) (s : ComponentState) : ComponentState :=
  { s with sortBy := newSort
           pagination := { s.pagination with currentPage := 1 } }

/-- handleFilterChange (lines 84-87): shallow-merge into a fresh filters
object (bumping its referential identity) and reset the page to 1. -/
def handleFilterChange (newFilters : FilterUpdate) (s : ComponentState) : ComponentState :=
  { s with filters := mergeFilters s.filters newFilters
           filtersRef := s.filtersRef + 1
           pagination := { s.pagination with currentPage := 1 } }

/-- handleResetAll (lines 89-93): default sort, freshly built empty filters
object, page 1. -/
def handleResetAll (s : ComponentState) : ComponentState :=
  { s with sortBy := "publishDate"
           filters := {}
           filtersRef := s.filtersRef + 1
           pagination := { s.pagination with currentPage := 1 } }

/-- handlePageChange (lines 95-99): update currentPage only when the request
is inside [1, totalPages], else do nothing. -/
def handlePageChange (newPage : Int) (s : ComponentState) : ComponentState :=
  if newPage ≥ 1 ∧ newPage ≤ s.pagination.totalPages then
    { s with pagination := { s.pagination with currentPage := newPage } }
  else s

/-- onClose of the ErrorModal (line 183): hide the modal. -/
def onCloseErrorModal (s : ComponentState) : ComponentState :=
  { s with showErrorModal := false }

/-- Dependency tuple of the useEffect at lines 75-77:
[pagination.currentPage, sortBy, filters] with filters compared by
reference. -/
def effectDeps (s : ComponentState) : Int × String × Nat :=
  (s.pagination.currentPage, s.sortBy, s.filtersRef)

/-- Number of fetches the useEffect issues after a transition from s to s2:
one when some dependency changed, none otherwise. -/
def fetchCount (s s2 : ComponentState) : Nat :=
  if effectDeps s2 = effectDeps s then 0 else 1

/-- Page argument the useEffect passes to fetchPosts when it fires: the
currentPage of the state it observes. -/
def fetchedPage (s2 : ComponentState) : Int :=
  s2.pagination.currentPage

/-- Query State in the sense of the spec's data model: page, sort key and
filters of a component state. -/
structure QueryState where
  page : Int
  sortKey : String
  filters : FilterState
deriving DecidableEq, Repr

/-- Projection of the component state onto the spec's Query State. -/
def queryState (s : ComponentState) : QueryState :=
  { page := s.pagination.currentPage, sortKey := s.sortBy, filters := s.filters }

/-- Pages passed to fetchPosts by the success path of handleDeletePost
(UserPosts.tsx lines 103-108).  `snap` is the `pagination` value captured by
the handler's render closure, i.e. the PRE-delete metadata: the awaited
fetchPosts updates React state but not this local binding. -/
def deleteRefetchPages (snap : Pagination) : List Int :=
  let newTotalPages := jsCeilDiv (snap.totalItems - 1) snap.itemsPerPage
  if snap.currentPage > newTotalPages ∧ newTotalPages > 0 then
    [snap.currentPage, newTotalPages]
  else
    [snap.currentPage]

/-- State transformation of the success path of handleDeletePost, with res1
the outcome of the current-page refetch and res2 the outcome of the
conditional last-valid-page refetch. -/
def handleDeletePostSuccess (res1 res2 : FetchResult) (s : ComponentState) : ComponentState :=
  let snap := s.pagination
  let s1 := fetchPosts res1 s
  let newTotalPages := jsCeilDiv (snap.totalItems - 1) snap.itemsPerPage
  if snap.currentPage > newTotalPages ∧ newTotalPages > 0 then
    fetchPosts res2 s1
  else s1

/-- Shape of the error caught by handleDeletePost: an axios error carrying
the optional error field of the response body, or any other thrown value. -/
inductive DeleteError where
  | axiosErr (backendError : Option String)
  | otherErr
deriving DecidableEq, Repr

/-- Catch branch of handleDeletePost (lines 109-124): an axios error with a
truthy response.data.error uses that message, every other case falls back to
the delete-failure copy; the code is always POST_DELETE_ERROR. -/
def deleteFailure (err : DeleteError) (s : ComponentState) : ComponentState :=
  let msg := match err with
    | .axiosErr (some m) => if m = "" then t "userPosts.errors.deleteFailed" else m
    | .axiosErr none => t "userPosts.errors.deleteFailed"
    | .otherErr => t "userPosts.errors.deleteFailed"
  { s with errorDetails := some { message := msg
                                  details := some (t "error.tryAgain")
                                  code := some "POST_DELETE_ERROR" }
           showErrorModal := true }

/-- Form data of the ChangePasswordPage component (lines 72-76). -/
structure PasswordFormData where
  oldPassword : String
  newPassword : String
  confirmPassword : String
deriving DecidableEq, Repr

/-- Body of the POST /auth/change-password request built at
ChangePasswordPage.tsx lines 122-127 (the route token is an external
collaborator and omitted). -/
structure ChangePasswordRequest where
  oldPassword : String
  newPassword : String
  confirmPassword : String
deriving DecidableEq, Repr

/-- Validation of handleSubmit (ChangePasswordPage.tsx lines 111-118):
mismatch is checked first, then minimum length six. -/
def validatePasswordForm (f : PasswordFormData) : Option String :=
  if f.newPassword ≠ f.confirmPassword then
    some "New passwords do not match"
  else if f.newPassword.length < 6 then
    some "New password must be at least 6 characters long"
  else
    none

/-- Local state reached by handleSubmit up to the point where the network
request is (or is not) dispatched: the error banner text, the loading flag,
and the request if one is issued. -/
structure SubmitStep where
  error : Option String
  loading : Bool
  request : Option ChangePasswordRequest
deriving DecidableEq, Repr

/-- Synchronous part of handleSubmit (lines 106-127): clear the error, run
the two validation checks and return early on failure (loading untouched,
hence still false); otherwise set loading and issue the request. -/
def handleSubmitValidate (f : PasswordFormData) : SubmitStep :=
  match validatePasswordForm f with
  | some msg => { error := some msg, loading := false, request := none }
  | none =>
      { error := none
        loading := true
        request := some { oldPassword := f.oldPassword
                          newPassword := f.newPassword
                          confirmPassword := f.confirmPassword } }

/-- UserRole enum of the models package; only ADMIN is compared against in
AdminDashboard.tsx. -/
inductive UserRole where
  | ADMIN
  | USER
deriving DecidableEq, Repr

/-- User model; the admin guard only reads the role. -/
structure User where
  id : Int
  login : String
  role : UserRole
deriving DecidableEq, Repr

/-- Tab selection state of AdminDashboard.tsx (line 11). -/
inductive ActiveTab where
  | posts
  | comments
  | categories
deriving DecidableEq, Repr

/-- Management components the dashboard can mount (renderContent,
lines 27-36). -/
inductive ManagementComponent where
  | postsManagement (currentUser : User)
  | commentsManagement (currentUser : User)
  | categoriesManagement
deriving DecidableEq, Repr

/-- Render result of AdminDashboard: either a Navigate redirect or the
dashboard with its active management component. -/
inductive AdminRender where
  | redirect (target : String)
  | dashboard (content : ManagementComponent)
deriving DecidableEq, Repr

/-- renderContent of AdminDashboard.tsx (lines 27-36). -/
def renderContent (tab : ActiveTab) (currentUser : User) : ManagementComponent :=
  match tab with
  | .posts => .postsManagement currentUser
  | .comments => .commentsManagement currentUser
  | .categories => .categoriesManagement

/-- AdminDashboard render (lines 13-36): optional chaining makes the role of
a null user undefined, which differs from ADMIN, so both null and non-admin
users get the Navigate-to-root redirect. -/
def adminDashboard (currentUser : Option User) (tab : ActiveTab) : AdminRender :=
  match currentUser with
  | none => .redirect "/"
  | some u =>
      if u.role ≠ UserRole.ADMIN then .redirect "/"
      else .dashboard (renderContent tab u)

/-- Management components present in a render result. -/
def managementComponents : AdminRender → List ManagementComponent
  | .redirect _ => []
  | .dashboard c => [c]

/-! Claim theorems. -/

/-- C6: every call to setSort (handleSortChange), setFilter
(handleFilterChange) or resetAll (handleResetAll) sets currentPage to 1,
regardless of the currentPage value before the call. -/
theorem c6_mutations_reset_page (s : ComponentState) (newSort : String) (nf : FilterUpdate) :
    (handleSortChange newSort s).pagination.currentPage = 1 ∧
    (handleFilterChange nf s).pagination.currentPage = 1 ∧
    (handleResetAll s).pagination.currentPage = 1 :=
  ⟨rfl, rfl, rfl⟩

/-- C7: for every fetch invocation, the loading flag is true at call start
and false on every exit path, whether the fetch succeeds or fails. -/
theorem c7_loading_flag (s : ComponentState) (res : FetchResult) :
    (fetchPostsStart s).isLoading = true ∧
    (fetchPosts res s).isLoading = false := by
  refine ⟨rfl, ?_⟩
  cases res <;> rfl

/-- C8: resetAll is idempotent on the Query State: from every starting
state, one call already yields the default Query State (page 1, sort
publishDate, empty filters) and a second call yields the same Query State
again. -/
theorem c8_reset_all_idempotent (s : ComponentState) :
    queryState (handleResetAll s) =
      { page := 1, sortKey := "publishDate", filters := {} } ∧
    queryState (handleResetAll (handleResetAll s)) = queryState (handleResetAll s) :=
  ⟨rfl, rfl⟩

/-- C2: after a successful delete the handler first re-fetches the page it
was on; when that page index exceeds the page count recomputed from the
pre-delete totalItems as the ceiling of (totalItems - 1) / itemsPerPage and
that count is positive, it additionally re-fetches that last valid page;
otherwise the current-page refetch is the only one.  In particular with
itemsPerPage 6, totalItems 7 and currentPage 2 the pages fetched are 2 then
1. -/
theorem c2_delete_page_reconcile (snap : Pagination) :
    (deleteRefetchPages snap).head? = some snap.currentPage ∧
    (snap.currentPage > jsCeilDiv (snap.totalItems - 1) snap.itemsPerPage ∧
        jsCeilDiv (snap.totalItems - 1) snap.itemsPerPage > 0 →
      deleteRefetchPages snap =
        [snap.currentPage, jsCeilDiv (snap.totalItems - 1) snap.itemsPerPage]) ∧
    (¬ (snap.currentPage > jsCeilDiv (snap.totalItems - 1) snap.itemsPerPage ∧
        jsCeilDiv (snap.totalItems - 1) snap.itemsPerPage > 0) →
      deleteRefetchPages snap = [snap.currentPage]) ∧
    deleteRefetchPages
        { currentPage := 2, totalPages := 2, totalItems := 7, itemsPerPage := 6 } = [2, 1] := by
  refine ⟨?_, ?_, ?_, by decide⟩
  · simp only [deleteRefetchPages]
    split <;> rfl
  · intro h
    simp only [deleteRefetchPages]
    rw [if_pos h]
  · intro h
    simp only [deleteRefetchPages]
    rw [if_neg h]

/-- Pagination snapshot of the spec's delete scenario: page size 6, 7 items,
user on page 2. -/
def scenarioSnap : Pagination :=
  { currentPage := 2, totalPages := 2, totalItems := 7, itemsPerPage := 6 }

/-- Witness for C2 at the spec scenario. -/
theorem c2_delete_page_reconcile_witness :
    deleteRefetchPages scenarioSnap =
      [scenarioSnap.currentPage,
        jsCeilDiv (scenarioSnap.totalItems - 1) scenarioSnap.itemsPerPage] :=
  (c2_delete_page_reconcile scenarioSnap).2.1 (by decide)

/-- C5 counterexample: at the initial state, the in-range request
setPage(1) keeps currentPage at its current value 1, so no useEffect
dependency changes and no fetch fires, contradicting that every in-range
setPage triggers exactly one fetch. -/
theorem c5_counterexample :
    (1 : Int) ≥ 1 ∧ (1 : Int) ≤ initialState.pagination.totalPages ∧
    (handlePageChange 1 initialState).pagination.currentPage = 1 ∧
    fetchCount initialState (handlePageChange 1 initialState) = 0 := by decide

/-- C5 amended: an in-range setPage(n) sets currentPage to n; it triggers
exactly one fetch, with page n, when n differs from the current page, and no
fetch when n equals it; an out-of-range setPage leaves the whole state
unchanged and triggers no fetch (and, being a total function, raises no
error). -/
theorem c5_set_page (n : Int) (s : ComponentState) :
    (n ≥ 1 ∧ n ≤ s.pagination.totalPages →
      (handlePageChange n s).pagination.currentPage = n ∧
      (n ≠ s.pagination.currentPage →
        fetchCount s (handlePageChange n s) = 1 ∧
        fetchedPage (handlePageChange n s) = n) ∧
      (n = s.pagination.currentPage →
        fetchCount s (handlePageChange n s) = 0)) ∧
    (n < 1 ∨ s.pagination.totalPages < n →
      handlePageChange n s = s ∧
      fetchCount s (handlePageChange n s) = 0) := by
  constructor
  · intro h
    have e : handlePageChange n s =
        { s with pagination := { s.pagination with currentPage := n } } := by
      unfold handlePageChange
      rw [if_pos h]
    refine ⟨by rw [e], ?_, ?_⟩
    · intro hne
      constructor
      · rw [e]
        simp [fetchCount, effectDeps, hne]
      · rw [e]
        rfl
    · intro heq
      rw [e]
      simp [fetchCount, effectDeps, heq]
  · intro h
    have hn : ¬ (n ≥ 1 ∧ n ≤ s.pagination.totalPages) := by omega
    have e : handlePageChange n s = s := by
      unfold handlePageChange
      rw [if_neg hn]
    refine ⟨e, ?_⟩
    rw [e]
    simp [fetchCount]

/-- Example state for the C5 witness: page 1 of 3. -/
def pageExampleState : ComponentState :=
  { initialState with
      pagination := { currentPage := 1, totalPages := 3, totalItems := 15, itemsPerPage := 6 } }

/-- Witness for C5: setPage(2) from page 1 of 3 moves to page 2 with exactly
one fetch of page 2; setPage(9) is ignored. -/
theorem c5_set_page_witness :
    (handlePageChange 2 pageExampleState).pagination.currentPage = 2 ∧
    fetchCount pageExampleState (handlePageChange 2 pageExampleState) = 1 ∧
    fetchedPage (handlePageChange 2 pageExampleState) = 2 ∧
    handlePageChange 9 pageExampleState = pageExampleState := by
  have h2 := (c5_set_page 2 pageExampleState).1 (by decide)
  have h9 := (c5_set_page 9 pageExampleState).2 (by decide)
  exact ⟨h2.1, (h2.2.1 (by decide)).1, (h2.2.1 (by decide)).2, h9.1⟩

/-- C1 counterexample: a list fetch failing with response body error
"Database unavailable" yields the fallback load-failed message, not the
backend-supplied one; the catch branch of fetchPosts never reads the error
payload (only the delete handler does). -/
theorem c1_counterexample :
    (fetchPosts (FetchResult.failure (some "Database unavailable")) initialState).errorDetails.map
        ErrorDetails.message ≠ some "Database unavailable" ∧
    (fetchPosts (FetchResult.failure (some "Database unavailable")) initialState).errorDetails.map
        ErrorDetails.message = some (t "userPosts.errors.loadFailed") ∧
    (fetchPosts (FetchResult.failure (some "Database unavailable")) initialState).errorDetails.map
        ErrorDetails.code = some (some "POSTS_LOAD_ERROR") := by decide

/-- C1 amended: every load failure, whatever error payload the backend
supplied, produces the same Error State: the fallback load-failed message
with code POSTS_LOAD_ERROR; backend-supplied messages take precedence over
fallback copy only in the delete handler. -/
theorem c1_load_failure_fallback (s : ComponentState) (e : Option String) (m : String)
    (hm : m ≠ "") :
    (fetchPosts (FetchResult.failure e) s).errorDetails = some loadFailedError ∧
    loadFailedError.message = t "userPosts.errors.loadFailed" ∧
    loadFailedError.code = some "POSTS_LOAD_ERROR" ∧
    (deleteFailure (DeleteError.axiosErr (some m)) s).errorDetails.map
        ErrorDetails.message = some m := by
  refine ⟨rfl, rfl, rfl, ?_⟩
  simp [deleteFailure, hm]

/-- Witness for C1 amended at a concrete failure and a concrete backend
delete message. -/
theorem c1_load_failure_fallback_witness :
    (fetchPosts (FetchResult.failure none) initialState).errorDetails = some loadFailedError ∧
    (deleteFailure (DeleteError.axiosErr (some "Database unavailable")) initialState).errorDetails.map
        ErrorDetails.message = some "Database unavailable" := by
  have h := c1_load_failure_fallback initialState none "Database unavailable" (by decide)
  exact ⟨h.1, h.2.2.2⟩

/-- State with an active error, for the C3 counterexample. -/
def errorShowingState : ComponentState :=
  { initialState with showErrorModal := true, errorDetails := some loadFailedError }

/-- C3 counterexample: starting a new fetch from a state with an active
error leaves the error active (even a successful completion does), so the
Error State is not cleared when a new fetch starts. -/
theorem c3_counterexample :
    errorShowingState.showErrorModal = true ∧
    (fetchPostsStart errorShowingState).showErrorModal = true ∧
    (fetchPostsStart errorShowingState).errorDetails = some loadFailedError ∧
    (fetchPosts
        (FetchResult.success []
          { currentPage := 1, totalPages := 1, totalItems := 0, itemsPerPage := 6 })
        errorShowingState).showErrorModal = true := by decide

/-- C3 amended: dismissing the modal hides the error (showErrorModal becomes
false, errorDetails is retained); starting a fetch changes neither
showErrorModal nor errorDetails, and a successful completion retains
errorDetails too; a failure overwrites the single optional error slot, so at
most one error is held at a time. -/
theorem c3_error_state_lifecycle (s : ComponentState) (ps : List Post) (pg : Pagination)
    (e : Option String) :
    (onCloseErrorModal s).showErrorModal = false ∧
    (onCloseErrorModal s).errorDetails = s.errorDetails ∧
    (fetchPostsStart s).showErrorModal = s.showErrorModal ∧
    (fetchPostsStart s).errorDetails = s.errorDetails ∧
    (fetchPosts (FetchResult.success ps pg) s).errorDetails = s.errorDetails ∧
    (fetchPosts (FetchResult.failure e) s).errorDetails = some loadFailedError :=
  ⟨rfl, rfl, rfl, rfl, rfl, rfl⟩

/-- C4 counterexample: itemsPerPage starts at 6, but applying the pagination
metadata of a successful fetch replaces the whole pagination object with the
server's, so a response reporting itemsPerPage 10 changes it. -/
theorem c4_counterexample :
    initialState.pagination.itemsPerPage = 6 ∧
    (fetchPosts
        (FetchResult.success []
          { currentPage := 1, totalPages := 1, totalItems := 0, itemsPerPage := 10 })
        initialState).pagination.itemsPerPage = 10 ∧
    (fetchPosts
        (FetchResult.success []
          { currentPage := 1, totalPages := 1, totalItems := 0, itemsPerPage := 10 })
        initialState).pagination.itemsPerPage ≠ 6 := by decide

/-- C4 amended: itemsPerPage is 6 initially and is preserved by every local
transition (sort change, filter change, reset, page change, fetch start,
fetch failure, modal dismissal); only applying a successful fetch's
pagination metadata replaces it, with the server-reported value. -/
theorem c4_items_per_page (s : ComponentState) (newSort : String) (nf : FilterUpdate)
    (n : Int) (e : Option String) (ps : List Post) (pg : Pagination) :
    initialState.pagination.itemsPerPage = 6 ∧
    (handleSortChange newSort s).pagination.itemsPerPage = s.pagination.itemsPerPage ∧
    (handleFilterChange nf s).pagination.itemsPerPage = s.pagination.itemsPerPage ∧
    (handleResetAll s).pagination.itemsPerPage = s.pagination.itemsPerPage ∧
    (handlePageChange n s).pagination.itemsPerPage = s.pagination.itemsPerPage ∧
    (fetchPostsStart s).pagination.itemsPerPage = s.pagination.itemsPerPage ∧
    (fetchPosts (FetchResult.failure e) s).pagination.itemsPerPage = s.pagination.itemsPerPage ∧
    (onCloseErrorModal s).pagination.itemsPerPage = s.pagination.itemsPerPage ∧
    (fetchPosts (FetchResult.success ps pg) s).pagination.itemsPerPage = pg.itemsPerPage := by
  refine ⟨rfl, rfl, rfl, rfl, ?_, rfl, rfl, rfl, rfl⟩
  unfold handlePageChange
  split <;> rfl

/-- C9: a password-change submission whose new password and confirmation
differ, or whose new password is shorter than 6 characters, sets a local
validation error, issues no request and leaves the loading flag false; the
request is issued exactly when both checks pass. -/
theorem c9_password_submit (f : PasswordFormData) :
    ((f.newPassword ≠ f.confirmPassword ∨ f.newPassword.length < 6) →
      (handleSubmitValidate f).request = none ∧
      (handleSubmitValidate f).loading = false ∧
      (handleSubmitValidate f).error.isSome = true) ∧
    ((handleSubmitValidate f).request.isSome = true ↔
      f.newPassword = f.confirmPassword ∧ 6 ≤ f.newPassword.length) := by
  have hval : validatePasswordForm f = none ↔
      (f.newPassword = f.confirmPassword ∧ 6 ≤ f.newPassword.length) := by
    unfold validatePasswordForm
    by_cases h1 : f.newPassword = f.confirmPassword
    · rw [if_neg (fun hc => hc h1)]
      by_cases h2 : f.newPassword.length < 6
      · rw [if_pos h2]
        refine iff_of_false (by simp) ?_
        rintro ⟨-, hlen⟩
        omega
      · rw [if_neg h2]
        exact iff_of_true rfl ⟨h1, by omega⟩
    · rw [if_pos h1]
      refine iff_of_false (by simp) ?_
      rintro ⟨heq, -⟩
      exact h1 heq
  rcases hs : validatePasswordForm f with _ | msg
  · obtain ⟨heq, hlen⟩ := hval.mp hs
    constructor
    · intro h
      rcases h with h | h
      · exact absurd heq h
      · exact absurd hlen (by omega)
    · simp only [handleSubmitValidate, hs, Option.isSome_some]
      exact iff_of_true trivial ⟨heq, hlen⟩
  · have hne : ¬ (f.newPassword = f.confirmPassword ∧ 6 ≤ f.newPassword.length) :=
      fun hc => Option.noConfusion (hs ▸ hval.mpr hc)
    constructor
    · intro _
      simp [handleSubmitValidate, hs]
    · simp only [handleSubmitValidate, hs]
      exact iff_of_false (by simp) hne

/-- Witness for C9: mismatching passwords are rejected with no request and
loading still false. -/
theorem c9_password_submit_witness :
    (handleSubmitValidate
        { oldPassword := "old", newPassword := "abcdef", confirmPassword := "abcdeg" }).request
      = none ∧
    (handleSubmitValidate
        { oldPassword := "old", newPassword := "abcdef", confirmPassword := "abcdeg" }).loading
      = false := by
  have h :=
    (c9_password_submit
        { oldPassword := "old", newPassword := "abcdef", confirmPassword := "abcdeg" }).1
      (by decide)
  exact ⟨h.1, h.2.1⟩

/-- C10: a null currentUser or one whose role is not ADMIN makes
AdminDashboard render a redirect to the root and none of the management
components; with an ADMIN user it renders the management component of the
active tab. -/
theorem c10_admin_guard (cu : Option User) (tab : ActiveTab) :
    ((cu = none ∨ ∃ u, cu = some u ∧ u.role ≠ UserRole.ADMIN) →
      adminDashboard cu tab = AdminRender.redirect "/" ∧
      managementComponents (adminDashboard cu tab) = []) ∧
    (∀ u, cu = some u → u.role = UserRole.ADMIN →
      adminDashboard cu tab = AdminRender.dashboard (renderContent tab u)) := by
  constructor
  · rintro (rfl | ⟨u, rfl, hu⟩)
    · exact ⟨rfl, rfl⟩
    · have e : adminDashboard (some u) tab = AdminRender.redirect "/" := by
        simp [adminDashboard, hu]
      exact ⟨e, by rw [e]; rfl⟩
  · intro u hcu hu
    subst hcu
    simp [adminDashboard, hu]

/-- Witness for C10: a missing user is redirected to the root with no
management component rendered. -/
theorem c10_admin_guard_witness :
    adminDashboard none ActiveTab.posts = AdminRender.redirect "/" ∧
    managementComponents (adminDashboard none ActiveTab.posts) = [] :=
  (c10_admin_guard none ActiveTab.posts).1 (Or.inl rfl)
